import Mathlib

/-!
Verification of the Pathé availability-monitor script (`check_pathe.py`).

The development shallowly embeds the script's pure logic in Lean:

* the `HH:MM` time-pattern matcher used inside `on_response`
  (the regex `\b(?:[01]\d|2[0-3]):[0-5]\d\b`, both `re.search` and
  `re.findall` uses);
* `check_availability`, with the browser session modelled as a
  `ProbeOutcome` (either the ordered list of intercepted XHR/FETCH
  responses, or a raised Playwright/other exception) and the Python
  `debug_info` dict modelled as an association list updated with Python
  dict-assignment semantics;
* the state store `read_state` / `write_state`, with the JSON encoding of
  the two-field state object modelled at character level exactly as
  `json.dump(..., indent=2, ensure_ascii=False)` emits it, and a
  character-level decoder for that grammar;
* the notifier `send_email_brevo`, with the environment and the SMTP
  session modelled as explicit parameters;
* the orchestrator `main`, returning `Except` so that an uncaught Python
  exception (e.g. a `KeyError` on a dict subscript) is visible as
  `.error`.
-/

/-! ## Constants from the script -/

def FILM_NAME : String := "Avatar : de feu et de cendres"

def FILM_URL : String := "https://www.pathe.fr/films/avatar-de-feu-et-de-cendres-11387"

def CINEMA_KEYWORD : String := "Brumath"

def CINEMA_URL : String := "https://www.pathe.fr/cinemas/cinema-pathe-brumath"

/-! ## The time-of-day regex `\b(?:[01]\d|2[0-3]):[0-5]\d\b`

Character classes are embedded via code points (`Char.toNat`).  The
explicit classes `[01]`, `2`, `[0-3]`, `[0-5]` are the ASCII codes 48/49,
50, 48..51 and 48..53.  `\d` in a Python 3 `str` pattern is the full
Unicode decimal-digit class (general category Nd), embedded below as the
complete Nd range table of Unicode 15.0/15.1 (the database of CPython
3.12/3.13).  `\b` is a word boundary over Python's Unicode `\w`
(underscore or alphanumeric); `isWordChar` embeds `\w` exactly on the
ASCII range and on the Nd digits (all of which are word characters in
Python), but not on the remaining Unicode alphanumerics (non-ASCII
letters etc.), whose full table is out of scope — therefore every
theorem characterizing the matcher's acceptance restricts itself to
ASCII strings, on which the embedded classes provably coincide with
Python's, while concrete evaluations only use inputs whose verdict is
insensitive to the unmodelled region. -/

/-- The code-point ranges of Unicode general category Nd (decimal
digits), Unicode 15.0/15.1: what `\d` matches in a Python 3 `str`
pattern. -/
def ndRanges : List (Nat × Nat) :=
  [(0x0030, 0x0039),  -- ASCII
   (0x0660, 0x0669),  -- Arabic-Indic
   (0x06F0, 0x06F9),  -- Extended Arabic-Indic
   (0x07C0, 0x07C9),  -- NKo
   (0x0966, 0x096F),  -- Devanagari
   (0x09E6, 0x09EF),  -- Bengali
   (0x0A66, 0x0A6F),  -- Gurmukhi
   (0x0AE6, 0x0AEF),  -- Gujarati
   (0x0B66, 0x0B6F),  -- Oriya
   (0x0BE6, 0x0BEF),  -- Tamil
   (0x0C66, 0x0C6F),  -- Telugu
   (0x0CE6, 0x0CEF),  -- Kannada
   (0x0D66, 0x0D6F),  -- Malayalam
   (0x0DE6, 0x0DEF),  -- Sinhala Lith
   (0x0E50, 0x0E59),  -- Thai
   (0x0ED0, 0x0ED9),  -- Lao
   (0x0F20, 0x0F29),  -- Tibetan
   (0x1040, 0x1049),  -- Myanmar
   (0x1090, 0x1099),  -- Myanmar Shan
   (0x17E0, 0x17E9),  -- Khmer
   (0x1810, 0x1819),  -- Mongolian
   (0x1946, 0x194F),  -- Limbu
   (0x19D0, 0x19D9),  -- New Tai Lue
   (0x1A80, 0x1A89),  -- Tai Tham Hora
   (0x1A90, 0x1A99),  -- Tai Tham Tham
   (0x1B50, 0x1B59),  -- Balinese
   (0x1BB0, 0x1BB9),  -- Sundanese
   (0x1C40, 0x1C49),  -- Lepcha
   (0x1C50, 0x1C59),  -- Ol Chiki
   (0xA620, 0xA629),  -- Vai
   (0xA8D0, 0xA8D9),  -- Saurashtra
   (0xA900, 0xA909),  -- Kayah Li
   (0xA9D0, 0xA9D9),  -- Javanese
   (0xA9F0, 0xA9F9),  -- Myanmar Tai Laing
   (0xAA50, 0xAA59),  -- Cham
   (0xABF0, 0xABF9),  -- Meetei Mayek
   (0xFF10, 0xFF19),  -- Fullwidth
   (0x104A0, 0x104A9),  -- Osmanya
   (0x10D30, 0x10D39),  -- Hanifi Rohingya
   (0x11066, 0x1106F),  -- Brahmi
   (0x110F0, 0x110F9),  -- Sora Sompeng
   (0x11136, 0x1113F),  -- Chakma
   (0x111D0, 0x111D9),  -- Sharada
   (0x112F0, 0x112F9),  -- Khudawadi
   (0x11450, 0x11459),  -- Newa
   (0x114D0, 0x114D9),  -- Tirhuta
   (0x11650, 0x11659),  -- Modi
   (0x116C0, 0x116C9),  -- Takri
   (0x11730, 0x11739),  -- Ahom
   (0x118E0, 0x118E9),  -- Warang Citi
   (0x11950, 0x11959),  -- Dives Akuru
   (0x11C50, 0x11C59),  -- Bhaiksuki
   (0x11D50, 0x11D59),  -- Masaram Gondi
   (0x11DA0, 0x11DA9),  -- Gunjala Gondi
   (0x11F50, 0x11F59),  -- Kawi
   (0x16A60, 0x16A69),  -- Mro
   (0x16AC0, 0x16AC9),  -- Tangsa
   (0x16B50, 0x16B59),  -- Pahawh Hmong
   (0x1D7CE, 0x1D7FF),  -- Mathematical (5 styled runs of 10)
   (0x1E140, 0x1E149),  -- Nyiakeng Puachue Hmong
   (0x1E2F0, 0x1E2F9),  -- Wancho
   (0x1E4F0, 0x1E4F9),  -- Nag Mundari
   (0x1E950, 0x1E959),  -- Adlam
   (0x1FBF0, 0x1FBF9)]  -- Segmented digits

/-- Python's `\d` for `str` patterns: Unicode general category Nd. -/
def digitB (c : Char) : Bool :=
  ndRanges.any (fun r => r.1 ≤ c.toNat && c.toNat ≤ r.2)

/-- Python's `\w` (underscore or Unicode alphanumeric), embedded exactly
on ASCII and on the Nd decimal digits; the remaining Unicode
alphanumerics (e.g. non-ASCII letters) are beyond this table, so
acceptance-set theorems restrict to ASCII strings. -/
def isWordChar (c : Char) : Bool := c.isAlphanum || c == '_' || digitB c

/-- `(?:[01]\d|2[0-3])` applied to two consecutive characters. -/
def hourOk (a b : Char) : Bool :=
  ((a.toNat == 48 || a.toNat == 49) && digitB b) ||
  (a.toNat == 50 && (48 ≤ b.toNat && b.toNat ≤ 51))

/-- `[0-5]\d` applied to two consecutive characters. -/
def minOk (a b : Char) : Bool :=
  (48 ≤ a.toNat && a.toNat ≤ 53) && digitB b

/-- Does the `\b(?:[01]\d|2[0-3]):[0-5]\d\b` pattern match at the head of
`l`, where `prev` is the character immediately before `l` (if any)? -/
def atMatch (prev : Option Char) : List Char → Bool
  | a :: b :: c :: d :: e :: rest =>
      (match prev with | none => true | some p => !isWordChar p) &&
      hourOk a b && (c == ':') && minOk d e &&
      (match rest with | [] => true | f :: _ => !isWordChar f)
  | _ => false

/-- `re.search` over the suffix `l`, `prev` being the preceding character. -/
def searchB (prev : Option Char) : List Char → Bool
  | [] => false
  | c :: rest => atMatch prev (c :: rest) || searchB (some c) rest

/-- `re.search(r"\b(?:[01]\d|2[0-3]):[0-5]\d\b", s)` as a Boolean. -/
def timeSearch (s : String) : Bool := searchB none s.data

/-- `len(re.findall(...))`: number of non-overlapping matches, scanning
left to right and resuming after each match, as `re.findall` does.
`skip` is the number of positions still inside the previous match (a new
match may not start there); `prev` is the preceding character. -/
def countAux (skip : Nat) (prev : Option Char) : List Char → Nat
  | [] => 0
  | c :: rest =>
      match skip with
      | Nat.succ k => countAux k (some c) rest
      | 0 =>
          if atMatch prev (c :: rest) then 1 + countAux 4 (some c) rest
          else countAux 0 (some c) rest

def countTimes (s : String) : Nat := countAux 0 none s.data

/-! ## The prober `check_availability` -/

/-- One network response observed by the `page.on("response", on_response)`
handler.  `body = none` models `resp.text()` raising (binary body). -/
structure Response where
  rtype : String
  url : String
  body : Option String
  deriving DecidableEq, Repr

/-- Outcome of the Playwright session inside `check_availability`'s `try`:
either the ordered list of responses seen by the handler, or an exception
raised by the browser-driving code. -/
inductive ProbeOutcome where
  | success (responses : List Response)
  | timeoutErr (msg : String)
  | scrapeErr (msg : String)
  deriving DecidableEq, Repr

/-- JSON-ish values stored in the `debug_info` dict. -/
inductive JVal where
  | null
  | jbool (b : Bool)
  | jnat (n : Nat)
  | jstr (s : String)
  | jlist (l : List String)
  deriving DecidableEq, Repr

/-- A Python dict with string keys, as an insertion-ordered assoc list. -/
abbrev Dict := List (String × JVal)

/-- Python `d[k] = v`: overwrite in place if the key exists, else append. -/
def dset (d : Dict) (k : String) (v : JVal) : Dict :=
  if d.any (fun p => p.1 == k) then
    d.map (fun p => if p.1 == k then (k, v) else p)
  else
    d ++ [(k, v)]

/-- Python `d.get(k)` / `d[k]` lookup (`none` = key absent = `KeyError`
for a subscript). -/
def dget (d : Dict) (k : String) : Option JVal :=
  (d.find? (fun p => p.1 == k)).map (fun p => p.2)

/-- The `debug_info` literal at the top of `check_availability`. -/
def initDebug : Dict :=
  [("available", .jbool false),
   ("film_found", .jbool false),
   ("nb_horaires", .jnat 0),
   ("error", .null),
   ("xhr_count", .jnat 0),
   ("hits_count", .jnat 0),
   ("sample_xhr_urls", .jlist []),
   ("sample_hit_urls", .jlist [])]

/-- `collected_xhr_urls`: the handler appends `resp.url` for every
XHR/FETCH response, before attempting to read its text. -/
def collectXhrUrls (rs : List Response) : List String :=
  (rs.filter (fun r => r.rtype == "xhr" || r.rtype == "fetch")).map (fun r => r.url)

/-- `collected_hits`: for every XHR/FETCH response whose text is readable
and matches the time regex, the pair `(url, len(findall))`. -/
def collectHits (rs : List Response) : List (String × Nat) :=
  rs.filterMap (fun r =>
    if r.rtype == "xhr" || r.rtype == "fetch" then
      match r.body with
      | none => none
      | some b => if timeSearch b then some (r.url, countTimes b) else none
    else none)

/-- `check_availability() -> (available, debug_info)`. -/
def check_availability (o : ProbeOutcome) : Bool × Dict :=
  match o with
  | .success rs =>
      let xhrUrls := collectXhrUrls rs
      let hits := collectHits rs
      let d1 := dset initDebug "xhr_count" (.jnat xhrUrls.length)
      let d2 := dset d1 "sample_xhr_urls" (.jlist (xhrUrls.take 8))
      let total := (hits.map (fun h => h.2)).sum
      let d3 := dset d2 "hits_count" (.jnat hits.length)
      let d4 := dset d3 "sample_hit_urls" (.jlist ((hits.take 8).map (fun h => h.1)))
      let d5 := dset d4 "nb_horaires" (.jnat total)
      let film_found := decide (0 < hits.length)
      let d6 := dset d5 "film_found" (.jbool film_found)
      let avail := film_found && decide (0 < total)
      let d7 := dset d6 "available" (.jbool avail)
      (avail, d7)
  | .timeoutErr m =>
      (false, dset initDebug "error" (.jstr ("Timeout Playwright: " ++ m)))
  | .scrapeErr m =>
      (false, dset initDebug "error" (.jstr ("Erreur scraping/API: " ++ m)))

/-! ## The state store: `read_state` / `write_state`

`write_state` is `json.dump(state, f, indent=2, ensure_ascii=False)` for
the two-field state object, modelled character by character (CPython's
encoder escapes `"` and `\`, uses the short escapes for the control
characters that have one, `\u00xx` for the remaining control characters,
and emits every character `≥ 0x20` verbatim when `ensure_ascii=False`).
`read_state` is `json.load` restricted to that grammar (flexible
whitespace, full string-escape decoding). -/

structure MonitorState where
  last_status : String
  last_seen_at : Option String
  deriving DecidableEq, Repr

def default_state : MonitorState := ⟨"unavailable", none⟩

def nibbleChar (n : Nat) : Char :=
  Char.ofNat (if n < 10 then 48 + n else 87 + n)

/-- How CPython's JSON encoder (with `ensure_ascii=False`) renders one
character inside a string literal. -/
def escapeChar (c : Char) : List Char :=
  if c = '"' then ['\\', '"']
  else if c = '\\' then ['\\', '\\']
  else if c = '\n' then ['\\', 'n']
  else if c = '\r' then ['\\', 'r']
  else if c = '\t' then ['\\', 't']
  else if c.toNat = 8 then ['\\', 'b']
  else if c.toNat = 12 then ['\\', 'f']
  else if c.toNat < 32 then
    '\\' :: 'u' :: '0' :: '0' :: nibbleChar (c.toNat / 16) :: [nibbleChar (c.toNat % 16)]
  else [c]

def escapeList (l : List Char) : List Char := l.flatMap escapeChar

/-- A JSON string literal: `"` + escaped body + `"`. -/
def encodeString (l : List Char) : List Char := '"' :: escapeList l ++ ['"']

/-- The exact character stream `json.dump({"last_status": ..,
"last_seen_at": ..}, indent=2, ensure_ascii=False)` writes. -/
def encodeStateChars (st : MonitorState) : List Char :=
  ['{', '\n', ' ', ' '] ++ encodeString "last_status".data ++ [':', ' '] ++
  encodeString st.last_status.data ++ [',', '\n', ' ', ' '] ++
  encodeString "last_seen_at".data ++ [':', ' '] ++
  (match st.last_seen_at with
   | some t => encodeString t.data
   | none => ['n', 'u', 'l', 'l']) ++
  ['\n', '}']

def write_state (st : MonitorState) : String := String.mk (encodeStateChars st)

def hexVal (c : Char) : Option Nat :=
  if 48 ≤ c.toNat ∧ c.toNat ≤ 57 then some (c.toNat - 48)
  else if 97 ≤ c.toNat ∧ c.toNat ≤ 102 then some (c.toNat - 87)
  else if 65 ≤ c.toNat ∧ c.toNat ≤ 70 then some (c.toNat - 55)
  else none

/-- Decode the body of a JSON string literal (after the opening quote),
returning the decoded characters and the input remaining after the
closing quote.  Raw control characters are rejected, as `json.load`
does in strict mode. -/
def decodeStringBody : List Char → Option (List Char × List Char)
  | [] => none
  | c :: rest =>
      if c = '"' then some ([], rest)
      else if c = '\\' then
        match rest with
        | [] => none
        | e :: r =>
            if e = '"' then (decodeStringBody r).map (fun p => ('"' :: p.1, p.2))
            else if e = '\\' then (decodeStringBody r).map (fun p => ('\\' :: p.1, p.2))
            else if e = '/' then (decodeStringBody r).map (fun p => ('/' :: p.1, p.2))
            else if e = 'b' then (decodeStringBody r).map (fun p => (Char.ofNat 8 :: p.1, p.2))
            else if e = 'f' then (decodeStringBody r).map (fun p => (Char.ofNat 12 :: p.1, p.2))
            else if e = 'n' then (decodeStringBody r).map (fun p => ('\n' :: p.1, p.2))
            else if e = 'r' then (decodeStringBody r).map (fun p => ('\r' :: p.1, p.2))
            else if e = 't' then (decodeStringBody r).map (fun p => ('\t' :: p.1, p.2))
            else if e = 'u' then
              match r with
              | h1 :: h2 :: h3 :: h4 :: r2 =>
                  match hexVal h1, hexVal h2, hexVal h3, hexVal h4 with
                  | some x1, some x2, some x3, some x4 =>
                      (decodeStringBody r2).map (fun p =>
                        (Char.ofNat (4096 * x1 + 256 * x2 + 16 * x3 + x4) :: p.1, p.2))
                  | _, _, _, _ => none
              | _ => none
            else none
      else if c.toNat < 32 then none
      else (decodeStringBody rest).map (fun p => (c :: p.1, p.2))

/-- JSON insignificant whitespace. -/
def skipWs (l : List Char) : List Char :=
  match l with
  | [] => []
  | c :: rest =>
      if c = ' ' ∨ c = '\n' ∨ c = '\t' ∨ c = '\r' then skipWs rest else c :: rest

def expectChar (c : Char) (l : List Char) : Option (List Char) :=
  match l with
  | [] => none
  | d :: rest => if d = c then some rest else none

def parseStringLit (l : List Char) : Option (List Char × List Char) :=
  match l with
  | [] => none
  | c :: rest => if c = '"' then decodeStringBody rest else none

/-- A value of the state object: a string literal or `null`. -/
def parseVal (l : List Char) : Option (Option (List Char) × List Char) :=
  if l.take 4 = ['n', 'u', 'l', 'l'] then some (none, l.drop 4)
  else (parseStringLit l).map (fun p => (some p.1, p.2))

/-- Parse the two-key state object (`json.load` restricted to the grammar
`write_state` emits, with arbitrary JSON whitespace). -/
def parseStateChars (l : List Char) : Option MonitorState :=
  (expectChar '{' (skipWs l)).bind fun l1 =>
  (parseStringLit (skipWs l1)).bind fun p1 =>
  (expectChar ':' (skipWs p1.2)).bind fun l3 =>
  (parseVal (skipWs l3)).bind fun q1 =>
  (expectChar ',' (skipWs q1.2)).bind fun l5 =>
  (parseStringLit (skipWs l5)).bind fun p2 =>
  (expectChar ':' (skipWs p2.2)).bind fun l7 =>
  (parseVal (skipWs l7)).bind fun q2 =>
  (expectChar '}' (skipWs q2.2)).bind fun l9 =>
  if skipWs l9 = [] ∧ p1.1 = "last_status".data ∧ p2.1 = "last_seen_at".data then
    match q1.1 with
    | some s => some ⟨String.mk s, q2.1.map String.mk⟩
    | none => none
  else none

def parseState (s : String) : Option MonitorState := parseStateChars s.data

/-- What happened when `read_state` touched the file system: the file is
absent, opening/reading it raised, or it yielded this content. -/
inductive FileOutcome where
  | missing
  | readErr (msg : String)
  | content (s : String)
  deriving DecidableEq, Repr

/-- `read_state`, returning the state together with the log lines it
printed. -/
def read_state (f : FileOutcome) : MonitorState × List String :=
  match f with
  | .missing => (default_state, [])
  | .readErr e =>
      (default_state,
       ["⚠️ Impossible de lire state.json (" ++ e ++ "). État par défaut."])
  | .content s =>
      match parseState s with
      | some st => (st, [])
      | none =>
          (default_state,
           ["⚠️ Impossible de lire state.json (invalid JSON). État par défaut."])

/-! ## The notifier `send_email_brevo` -/

/-- The four environment variables the notifier reads (`none` = unset). -/
structure Config where
  smtp_user : Option String
  smtp_pass : Option String
  from_email : Option String
  alert_to : Option String
  deriving DecidableEq, Repr

/-- Outcome of the SMTP session (connect/starttls/login/sendmail). -/
inductive SmtpOutcome where
  | success
  | failure (msg : String)
  deriving DecidableEq, Repr

/-- Python truthiness of an optional string (`None` and `""` are falsy). -/
def truthy (o : Option String) : Bool :=
  match o with
  | none => false
  | some s => !(s == "")

/-- The `not all([smtp_user, smtp_pass, from_email, to_email])` guard,
with the `ALERT_TO_EMAIL` default already applied to `to_email`. -/
def missingConfig (cfg : Config) : Bool :=
  !(truthy cfg.smtp_user && truthy cfg.smtp_pass && truthy cfg.from_email &&
    !((cfg.alert_to.getD "satheeshprashanth2002@gmail.com") == ""))

structure SendResult where
  ok : Bool
  attempted : Bool
  logs : List String
  deriving DecidableEq, Repr

/-- `send_email_brevo(subject, body) -> bool`; `attempted` records whether
an SMTP connection was opened. -/
def send_email_brevo (cfg : Config) (smtp : SmtpOutcome)
    (_subject _body : String) : SendResult :=
  if missingConfig cfg then
    { ok := false, attempted := false, logs := ["❌ Variables SMTP manquantes"] }
  else
    match smtp with
    | .success =>
        { ok := true, attempted := true,
          logs := ["✉️ Connexion SMTP Brevo…",
                   "✅ Email envoyé à " ++ cfg.alert_to.getD "satheeshprashanth2002@gmail.com"] }
    | .failure m =>
        { ok := false, attempted := true,
          logs := ["✉️ Connexion SMTP Brevo…", "❌ Erreur envoi email: " ++ m] }

/-! ## The orchestrator `main` -/

/-- Rendering of a dict value inside the notification body's f-string
(`None` for an absent `.get`). -/
def jvalText (o : Option JVal) : String :=
  match o with
  | none => "None"
  | some .null => "None"
  | some (.jbool b) => if b then "True" else "False"
  | some (.jnat n) => toString n
  | some (.jstr s) => s
  | some (.jlist l) => toString l

structure MainResult where
  written : MonitorState
  fileContent : String
  emails : List (String × String)
  emailOk : Option Bool
  deriving DecidableEq, Repr

/-- One invocation of `main`, parameterised by the prior state produced
by `read_state`, the probe outcome, the notifier environment, the SMTP
outcome, and the current timestamp.  The result is `Except`: `.error`
models a Python exception escaping `main` (here, the `KeyError` raised
by the subscript `debug['reservation_signal']` when the key is absent). -/
def mainFn (prior : MonitorState) (o : ProbeOutcome) (cfg : Config)
    (smtp : SmtpOutcome) (now : String) : Except String MainResult :=
  let last_status := prior.last_status
  let res := check_availability o
  let debug := res.2
  let new_status := if res.1 then "available" else "unavailable"
  if new_status = "available" ∧ ¬ last_status = "available" then
    match dget debug "reservation_signal" with
    | none => Except.error "KeyError: reservation_signal"
    | some rsv =>
        let subject := "🎬 Pathé Brumath: séances dispo - " ++ FILM_NAME
        let body :=
          "Film: " ++ FILM_NAME ++ "\nCinéma: Pathé " ++ CINEMA_KEYWORD ++
          "\nURL film: " ++ FILM_URL ++ "\nURL cinéma: " ++ CINEMA_URL ++
          "\n\nDétails:\n- film_found_on_cinema_page: " ++
          jvalText (dget debug "film_found_on_cinema_page") ++
          "\n- reservation_signal: " ++ jvalText (some rsv) ++
          "\n- nb_horaires: " ++ jvalText (dget debug "nb_horaires") ++
          "\n- error: " ++ jvalText (dget debug "error") ++
          "\n\nDate (UTC): " ++ now
        let sent := send_email_brevo cfg smtp subject body
        let st : MonitorState := ⟨new_status, some now⟩
        Except.ok ⟨st, write_state st, [(subject, body)], some sent.ok⟩
  else
    let st : MonitorState := ⟨new_status, some now⟩
    Except.ok ⟨st, write_state st, [], none⟩

/-! ## Spec-side definitions for the availability formula (claim C4)

The script never inspects the film title nor any reservation keyword
(its `film_low` and `film_id_match` variables are computed but unused),
so the spec's formula needs definitions of its own, modelled from the
spec's words and compared against `check_availability`. -/

def toLowerList (l : List Char) : List Char := l.map Char.toLower

def prefixOfB : List Char → List Char → Bool
  | [], _ => true
  | _ :: _, [] => false
  | a :: xs, b :: ys => a == b && prefixOfB xs ys

def containsSub (needle : List Char) : List Char → Bool
  | [] => prefixOfB needle []
  | b :: ys => prefixOfB needle (b :: ys) || containsSub needle ys

/-- Modelled from the spec: "film presence: a boolean — is there
affirmative evidence (a link, a DOM element, or a text/JSON match) that
the target title appears in the venue's listing", read over the evidence
the script collects (the intercepted response bodies), with case
normalization. -/
def film_present_spec (rs : List Response) : Bool :=
  rs.any (fun r =>
    match r.body with
    | some b => containsSub (toLowerList FILM_NAME.data) (toLowerList b.data)
    | none => false)

/-- Modelled from the spec: "an explicit reservation/ticketing keyword is
present" in the collected evidence. -/
def reservation_keyword_spec (rs : List Response) : Bool :=
  rs.any (fun r =>
    match r.body with
    | some b =>
        containsSub (toLowerList "réserv".data) (toLowerList b.data) ||
        containsSub (toLowerList "billet".data) (toLowerList b.data)
    | none => false)

/-- `total_times` of a probe: the summed `findall` counts. -/
def totalTimesOf (rs : List Response) : Nat :=
  ((collectHits rs).map (fun h => h.2)).sum

/-- Modelled from the spec: `available = film_present AND (time_matches >
0 OR an explicit reservation/ticketing keyword is present)`. -/
def spec_available (rs : List Response) : Bool :=
  film_present_spec rs &&
    (decide (0 < totalTimesOf rs) || reservation_keyword_spec rs)

/-! ## Helper lemmas about the diagnostics dict -/

theorem diag_keys (o : ProbeOutcome) :
    ((check_availability o).2).map Prod.fst =
    ["available", "film_found", "nb_horaires", "error", "xhr_count",
     "hits_count", "sample_xhr_urls", "sample_hit_urls"] := by
  cases o <;> simp [check_availability, dset, initDebug]

theorem dget_reservation_none (o : ProbeOutcome) :
    dget (check_availability o).2 "reservation_signal" = none := by
  cases o <;> simp [check_availability, dset, dget, initDebug, List.find?]

theorem dget_film_page_none (o : ProbeOutcome) :
    dget (check_availability o).2 "film_found_on_cinema_page" = none := by
  cases o <;> simp [check_availability, dset, dget, initDebug, List.find?]

/-! ## Claim C10: the diagnostics record's keys -/

/-- C10: for every execution of `check_availability` (successful or
failing), the returned diagnostics dict has exactly the keys
`available, film_found, nb_horaires, error, xhr_count, hits_count,
sample_xhr_urls, sample_hit_urls`, in that order, and in particular
contains neither `reservation_signal` nor `film_found_on_cinema_page`,
the keys `main`'s notification body reads. -/
theorem c10_diag_keys (o : ProbeOutcome) :
    ((check_availability o).2).map Prod.fst =
      ["available", "film_found", "nb_horaires", "error", "xhr_count",
       "hits_count", "sample_xhr_urls", "sample_hit_urls"] ∧
    dget (check_availability o).2 "reservation_signal" = none ∧
    dget (check_availability o).2 "film_found_on_cinema_page" = none :=
  ⟨diag_keys o, dget_reservation_none o, dget_film_page_none o⟩

/-! ## Claim C5: probe-level exceptions are caught -/

/-- C5: for every internal exception raised during a probe (a Playwright
timeout or any other error), `check_availability` returns
`(False, diagnostics)` with a non-null `error` field; no exception
reaches the caller (the embedding is a total function whose error
branches are exactly the script's two `except` clauses). -/
theorem c5_probe_errors_caught (msg : String) :
    ((check_availability (.timeoutErr msg)).1 = false ∧
      dget (check_availability (.timeoutErr msg)).2 "error" =
        some (.jstr ("Timeout Playwright: " ++ msg))) ∧
    ((check_availability (.scrapeErr msg)).1 = false ∧
      dget (check_availability (.scrapeErr msg)).2 "error" =
        some (.jstr ("Erreur scraping/API: " ++ msg))) := by
  refine ⟨⟨rfl, ?_⟩, ⟨rfl, ?_⟩⟩ <;>
    simp [check_availability, dset, dget, initDebug, List.find?]

/-! ## Claim C7: the notifier's configuration guard and error handling -/

/-- C7: if any of the four configuration values is missing (in Python's
sense: unset or empty, with `ALERT_TO_EMAIL` defaulted), then
`send_email_brevo` logs the error line and returns `False` without
opening an SMTP connection; and every SMTP failure yields a `False`
return rather than an exception (the embedding is total, mirroring the
`try`/`except` around the session). -/
theorem c7_notifier_guard (cfg : Config) (smtp : SmtpOutcome)
    (subject body : String) :
    (missingConfig cfg = true →
      (send_email_brevo cfg smtp subject body).ok = false ∧
      (send_email_brevo cfg smtp subject body).attempted = false ∧
      (send_email_brevo cfg smtp subject body).logs =
        ["❌ Variables SMTP manquantes"]) ∧
    (∀ m, smtp = .failure m →
      (send_email_brevo cfg smtp subject body).ok = false) := by
  constructor
  · intro h
    simp [send_email_brevo, h]
  · intro m hm
    subst hm
    by_cases h : missingConfig cfg <;> simp [send_email_brevo, h]

/-- Witness for C7 at a concrete configuration: `BREVO_SMTP_USER` unset
makes the guard fire, and an SMTP failure with a full configuration
returns `False`. -/
theorem c7_notifier_guard_witness :
    (send_email_brevo ⟨none, some "k", some "f@x.org", some "t@x.org"⟩
        .success "s" "b").ok = false ∧
    (send_email_brevo ⟨none, some "k", some "f@x.org", some "t@x.org"⟩
        .success "s" "b").attempted = false ∧
    (send_email_brevo ⟨some "u", some "k", some "f@x.org", some "t@x.org"⟩
        (.failure "boom") "s" "b").ok = false :=
  ⟨((c7_notifier_guard ⟨none, some "k", some "f@x.org", some "t@x.org"⟩
      .success "s" "b").1 (by decide)).1,
   ((c7_notifier_guard ⟨none, some "k", some "f@x.org", some "t@x.org"⟩
      .success "s" "b").1 (by decide)).2.1,
   (c7_notifier_guard ⟨some "u", some "k", some "f@x.org", some "t@x.org"⟩
      (.failure "boom") "s" "b").2 "boom" rfl⟩

/-! ## Claims C1 and C2: the notification path raises `KeyError`

`main`'s notification body subscripts `debug['reservation_signal']`, a
key the diagnostics dict never contains (`c10_diag_keys`), so the one
path on which the script's own docstring says an email is sent instead
raises `KeyError` before `send_email_brevo` is ever called. -/

/-- C1 (code bug): with prior status `unavailable`, a probe verdict of
`available` (here: one XHR response carrying a showtime), and a complete
SMTP configuration, `main` raises `KeyError: reservation_signal` while
composing the notification body — so no notification is sent on the very
transition for which the spec (and the script's docstring) require one. -/
theorem c1_transition_raises_keyerror :
    (check_availability
        (.success [⟨"xhr", "https://www.pathe.fr/api/shows", some "séance 20:15"⟩])).1
      = true ∧
    mainFn ⟨"unavailable", some "2026-01-01T00:00:00+00:00"⟩
        (.success [⟨"xhr", "https://www.pathe.fr/api/shows", some "séance 20:15"⟩])
        ⟨some "u", some "k", some "from@x.org", some "to@x.org"⟩
        .success "2026-01-02T00:00:00+00:00" =
      Except.error "KeyError: reservation_signal" :=
  ⟨rfl, rfl⟩

/-- C2 (code bug): `main` does not run to completion on every input: on
the `unavailable → available` notification path the dict subscript
`debug['reservation_signal']` raises `KeyError`, which escapes `main`. -/
theorem c2_main_raises_keyerror :
    mainFn ⟨"unavailable", none⟩
        (.success [⟨"fetch", "https://api.example.org/x", some "10:00 11:30"⟩])
        ⟨none, none, none, none⟩ .success "2026-02-02T10:00:00+00:00" =
      Except.error "KeyError: reservation_signal" :=
  rfl

/-! ## Claim C3: the persisted state after a completed invocation -/

/-- C3: after every invocation of `main` that runs to completion, the
state handed to `write_state` (and hence persisted) has `last_status`
equal to the probe's verdict (`available` iff the probe returned `True`)
and `last_seen_at` updated to the current timestamp; moreover the
persisted file content is exactly the serialization of that state. -/
theorem c3_persisted_state (prior : MonitorState) (o : ProbeOutcome)
    (cfg : Config) (smtp : SmtpOutcome) (now : String) (r : MainResult)
    (h : mainFn prior o cfg smtp now = Except.ok r) :
    r.written.last_status =
      (if (check_availability o).1 then "available" else "unavailable") ∧
    r.written.last_seen_at = some now ∧
    r.fileContent = write_state r.written := by
  by_cases hav : (check_availability o).1 = true
  · by_cases hp : prior.last_status = "available"
    · simp [mainFn, hav, hp] at h
      subst h
      exact ⟨by simp [hav], rfl, rfl⟩
    · simp [mainFn, dget_reservation_none, hav, hp] at h
  · simp [mainFn, hav] at h
    subst h
    exact ⟨by simp [hav], rfl, rfl⟩

/-- Witness for C3: a completing invocation (prior status `available`,
probe verdict `unavailable` from an empty response set). -/
theorem c3_persisted_state_witness :
    (⟨⟨"unavailable", some "t1"⟩, write_state ⟨"unavailable", some "t1"⟩,
        [], none⟩ : MainResult).written.last_status =
      (if (check_availability (.success [])).1 then "available" else "unavailable") ∧
    (⟨⟨"unavailable", some "t1"⟩, write_state ⟨"unavailable", some "t1"⟩,
        [], none⟩ : MainResult).written.last_seen_at = some "t1" :=
  ⟨(c3_persisted_state ⟨"available", some "t0"⟩ (.success []) ⟨none, none, none, none⟩
      .success "t1" _ rfl).1,
   (c3_persisted_state ⟨"available", some "t0"⟩ (.success []) ⟨none, none, none, none⟩
      .success "t1" _ rfl).2.1⟩

/-! ## Claim C6: `read_state` on a missing or unreadable file -/

/-- C6 counterexample: when the state file is simply missing,
`read_state` returns the default state but logs NO warning (the script
only logs inside the `except` clause, which a missing file never
reaches), refuting the claim that a warning is logged in that case too. -/
theorem c6_missing_file_logs_nothing :
    read_state FileOutcome.missing =
      (⟨"unavailable", none⟩, ([] : List String)) := rfl

/-- C6 as amended: `read_state` never raises; it returns the default
state `{unavailable, null}` whenever the file is missing, reading it
raises, or parsing it fails — and logs a warning in the read-failure and
parse-failure cases (but not when the file is merely missing). -/
theorem c6_load_failures_defaulted :
    (read_state .missing).1 = default_state ∧
    (∀ e, (read_state (.readErr e)).1 = default_state ∧
      (read_state (.readErr e)).2 ≠ []) ∧
    (∀ c, parseState c = none →
      (read_state (.content c)).1 = default_state ∧
      (read_state (.content c)).2 ≠ []) := by
  refine ⟨rfl, fun e => ⟨rfl, by simp [read_state]⟩, fun c hc => ?_⟩
  simp [read_state, hc]

/-- Witness for C6 (amended) at a concrete unparsable file content. -/
theorem c6_load_failures_defaulted_witness :
    (read_state (.content "oops")).1 = default_state ∧
    (read_state (.content "oops")).2 ≠ [] :=
  c6_load_failures_defaulted.2.2 "oops" (by decide)

/-! ## Claim C4: what the verdict actually is -/

theorem one_le_countAux_of_searchB (l : List Char) :
    ∀ prev, searchB prev l = true → 1 ≤ countAux 0 prev l := by
  induction l with
  | nil => intro prev h; simp [searchB] at h
  | cons c rest ih =>
      intro prev h
      by_cases hm : atMatch prev (c :: rest) = true
      · simp [countAux, hm]
      · simp only [searchB, hm, Bool.false_or] at h
        simpa [countAux, hm] using ih (some c) h

theorem mem_collectHits_pos {rs : List Response} {p : String × Nat}
    (hp : p ∈ collectHits rs) : 1 ≤ p.2 := by
  rcases List.mem_filterMap.mp hp with ⟨r, _, hf⟩
  split at hf
  · cases hb : r.body with
    | none => simp [hb] at hf
    | some b =>
        simp only [hb] at hf
        split at hf
        · cases hf
          exact one_le_countAux_of_searchB b.data none (by assumption)
        · simp at hf
  · simp at hf

/-- C4 counterexample: an intercepted XHR response carrying a showtime
but no occurrence of the film title.  The code's verdict is `True`
(`film_found` records only "some response matched the time regex"),
while the spec's formula — with `film_present` read as affirmative
evidence of the target title — is `False`. -/
theorem c4_formula_counterexample :
    (check_availability
        (.success [⟨"xhr", "https://www.pathe.fr/api/zones",
          some "ouverture 12:30 salle"⟩])).1 = true ∧
    spec_available [⟨"xhr", "https://www.pathe.fr/api/zones",
      some "ouverture 12:30 salle"⟩] = false :=
  ⟨rfl, by decide⟩

/-- C4 as amended: the verdict of a successful probe is `True` exactly
when some intercepted XHR/FETCH response body contains an `HH:MM` time
match; this single condition subsumes both `film_found` and
`time_matches > 0` (the title is never consulted, and no
reservation-keyword disjunct exists in the code). -/
theorem c4_verdict_characterization (rs : List Response) :
    (check_availability (.success rs)).1 = true ↔
      ∃ r ∈ rs, (r.rtype = "xhr" ∨ r.rtype = "fetch") ∧
        ∃ b, r.body = some b ∧ timeSearch b = true := by
  simp only [check_availability]
  constructor
  · intro h
    rw [Bool.and_eq_true, decide_eq_true_iff, decide_eq_true_iff] at h
    obtain ⟨hlen, -⟩ := h
    obtain ⟨p, hp⟩ := List.exists_mem_of_length_pos hlen
    rcases List.mem_filterMap.mp hp with ⟨r, hr, hf⟩
    refine ⟨r, hr, ?_⟩
    split at hf
    · rename_i hty
      cases hb : r.body with
      | none => simp [hb] at hf
      | some b =>
          simp only [hb] at hf
          split at hf
          · rename_i hts
            exact ⟨by simpa using hty, b, rfl, hts⟩
          · simp at hf
    · simp at hf
  · rintro ⟨r, hr, hty, b, hb, hts⟩
    have hguard : (r.rtype == "xhr" || r.rtype == "fetch") = true := by
      rcases hty with h | h <;> simp [h]
    have hmem : (r.url, countTimes b) ∈ collectHits rs := by
      apply List.mem_filterMap.mpr
      exact ⟨r, hr, by simp [hguard, hb, hts]⟩
    have hlen : 0 < (collectHits rs).length :=
      List.length_pos.mpr (List.ne_nil_of_mem hmem)
    have hsum : 1 ≤ ((collectHits rs).map (fun h => h.2)).sum := by
      have h2 : countTimes b ∈ (collectHits rs).map (fun h => h.2) :=
        List.mem_map.mpr ⟨_, hmem, rfl⟩
      exact le_trans (one_le_countAux_of_searchB b.data none hts)
        (List.single_le_sum (fun x _ => Nat.zero_le x) _ h2)
    rw [Bool.and_eq_true, decide_eq_true_iff, decide_eq_true_iff]
    exact ⟨hlen, hsum⟩

/-! ## Claim C9: characterizing the time-pattern matcher -/

/-- `\b` at a position whose following character is a word character:
satisfied iff the preceding character (if any) is not one. -/
def noWordB (o : Option Char) : Bool :=
  match o with
  | none => true
  | some c => !isWordChar c

/-- The character preceding the end of `pre`, when `prev` precedes `pre`
itself. -/
def lastO (prev : Option Char) (pre : List Char) : Option Char :=
  pre.foldl (fun _ c => some c) prev

theorem lastO_eq_getLast? (pre : List Char) : ∀ prev : Option Char,
    lastO prev pre = match pre.getLast? with
                     | some x => some x
                     | none => prev := by
  induction pre with
  | nil => intro prev; simp [lastO]
  | cons c l ih =>
      intro prev
      show lastO (some c) l = _
      rw [ih (some c)]
      cases hl : l.getLast? with
      | none =>
          have : l = [] := by
            cases l with
            | nil => rfl
            | cons x xs => simp [List.getLast?_concat] at hl
          subst this
          simp
      | some x =>
          cases l with
          | nil => simp at hl
          | cons y ys => simp [List.getLast?_cons_cons, hl]

/-- On the ASCII range the Unicode Nd class is exactly the digits 0–9
(the next Nd range starts at U+0660). -/
theorem digitB_ascii {c : Char} (h : c.toNat < 128) :
    digitB c = true ↔
      48 ≤ c.toNat ∧ c.toNat ≤ 57 := by
  simp [digitB, ndRanges]
  omega

theorem hourOk_ascii_iff {a b : Char} (hb : b.toNat < 128) :
    hourOk a b = true ↔
      (48 ≤ a.toNat ∧ a.toNat ≤ 57) ∧ (48 ≤ b.toNat ∧ b.toNat ≤ 57) ∧
      10 * (a.toNat - 48) + (b.toNat - 48) ≤ 23 := by
  rw [hourOk]
  simp only [Bool.or_eq_true, Bool.and_eq_true, beq_iff_eq,
    decide_eq_true_eq, digitB_ascii hb]
  omega

theorem minOk_ascii_iff {d e : Char} (he : e.toNat < 128) :
    minOk d e = true ↔
      (48 ≤ d.toNat ∧ d.toNat ≤ 57) ∧ (48 ≤ e.toNat ∧ e.toNat ≤ 57) ∧
      10 * (d.toNat - 48) + (e.toNat - 48) ≤ 59 := by
  rw [minOk]
  simp only [Bool.and_eq_true, decide_eq_true_eq, digitB_ascii he]
  omega

theorem atMatch_cons_iff (prev : Option Char) (a b k d e : Char)
    (post : List Char) :
    atMatch prev (a :: b :: k :: d :: e :: post) = true ↔
      noWordB prev = true ∧ hourOk a b = true ∧ k = ':' ∧
      minOk d e = true ∧ noWordB post.head? = true := by
  cases prev <;> cases post <;>
    simp [atMatch, noWordB, Bool.and_eq_true, beq_iff_eq] <;> tauto

theorem searchB_iff (l : List Char) : ∀ prev : Option Char,
    searchB prev l = true ↔
      ∃ pre a b d e post, l = pre ++ a :: b :: ':' :: d :: e :: post ∧
        hourOk a b = true ∧ minOk d e = true ∧
        noWordB (lastO prev pre) = true ∧ noWordB post.head? = true := by
  induction l with
  | nil =>
      intro prev
      constructor
      · intro h; simp [searchB] at h
      · rintro ⟨pre, a, b, d, e, post, h, -⟩
        cases pre <;> simp at h
  | cons c rest ih =>
      intro prev
      rw [searchB, Bool.or_eq_true, ih (some c)]
      constructor
      · rintro (hm | ⟨pre, a, b, d, e, post, hrest, hh, hmn, hb, hpost⟩)
        · rcases rest with _ | ⟨b, rest⟩
          · simp [atMatch] at hm
          rcases rest with _ | ⟨k, rest⟩
          · simp [atMatch] at hm
          rcases rest with _ | ⟨d, rest⟩
          · simp [atMatch] at hm
          rcases rest with _ | ⟨e, post⟩
          · simp [atMatch] at hm
          rw [atMatch_cons_iff] at hm
          obtain ⟨hprev, hh, hk, hmn, hpost⟩ := hm
          subst hk
          exact ⟨[], c, b, d, e, post, rfl, hh, hmn, hprev, hpost⟩
        · exact ⟨c :: pre, a, b, d, e, post, by rw [hrest]; rfl, hh, hmn, hb, hpost⟩
      · rintro ⟨pre, a, b, d, e, post, hl, hh, hmn, hb, hpost⟩
        cases pre with
        | nil =>
            left
            simp only [List.nil_append] at hl
            cases hl
            rw [atMatch_cons_iff]
            exact ⟨hb, hh, rfl, hmn, hpost⟩
        | cons p pre2 =>
            right
            simp only [List.cons_append, List.cons.injEq] at hl
            obtain ⟨hc, hrest⟩ := hl
            subst hc
            exact ⟨pre2, a, b, d, e, post, hrest, hh, hmn, hb, hpost⟩

/-- C9 counterexample: Python's `\d` in a `str` pattern is the Unicode
decimal-digit class, so the program's matcher also accepts time-like
strings written with non-ASCII digits: "12:3٤" — last character U+0664,
ARABIC-INDIC DIGIT FOUR, not an ASCII digit, so the string is not of the
form `HH:MM` over the digits 0–9 — nevertheless matches. -/
theorem c9_unicode_digit_counterexample :
    timeSearch "12:3٤" = true ∧
    "12:3٤".data = ['1', '2', ':', '3', '٤'] ∧
    ¬(48 ≤ '٤'.toNat ∧ '٤'.toNat ≤ 57) := by decide

/-- C9 as amended: over ASCII strings — on which the embedded classes
provably coincide with Python's Unicode `\d`/`\w` — the compiled time
matcher finds a match exactly when some substring has the shape `HH:MM`
(two ASCII digits, a colon, two ASCII digits) with hour value at most 23
and minute value at most 59, delimited by word boundaries on both
sides; in particular `24:00` and `12:60` do not match.  On full Unicode
the `\d` positions additionally accept any Nd digit
(`c9_unicode_digit_counterexample`). -/
theorem c9_ascii_time_pattern (s : String)
    (hascii : ∀ c ∈ s.data, c.toNat < 128) :
    (timeSearch s = true ↔
      ∃ pre a b d e post, s.data = pre ++ a :: b :: ':' :: d :: e :: post ∧
        (48 ≤ a.toNat ∧ a.toNat ≤ 57) ∧ (48 ≤ b.toNat ∧ b.toNat ≤ 57) ∧
        (48 ≤ d.toNat ∧ d.toNat ≤ 57) ∧ (48 ≤ e.toNat ∧ e.toNat ≤ 57) ∧
        10 * (a.toNat - 48) + (b.toNat - 48) ≤ 23 ∧
        10 * (d.toNat - 48) + (e.toNat - 48) ≤ 59 ∧
        noWordB pre.getLast? = true ∧ noWordB post.head? = true) ∧
    timeSearch "24:00" = false ∧ timeSearch "12:60" = false := by
  refine ⟨?_, by decide, by decide⟩
  rw [timeSearch, searchB_iff s.data none]
  constructor
  · rintro ⟨pre, a, b, d, e, post, hl, hh, hmn, hb, hpost⟩
    have hmb : b.toNat < 128 := hascii b (by rw [hl]; simp)
    have hme : e.toNat < 128 := hascii e (by rw [hl]; simp)
    rw [hourOk_ascii_iff hmb] at hh
    rw [minOk_ascii_iff hme] at hmn
    rw [lastO_eq_getLast? pre none] at hb
    refine ⟨pre, a, b, d, e, post, hl, hh.1, hh.2.1, hmn.1, hmn.2.1,
      hh.2.2, hmn.2.2, ?_, hpost⟩
    cases hg : pre.getLast? with
    | none => simp [noWordB]
    | some x => rw [hg] at hb; exact hb
  · rintro ⟨pre, a, b, d, e, post, hl, ha, hb2, hd, he, hhour, hmin, hlast, hpost⟩
    refine ⟨pre, a, b, d, e, post, hl,
      (hourOk_ascii_iff (by omega)).mpr ⟨ha, hb2, hhour⟩,
      (minOk_ascii_iff (by omega)).mpr ⟨hd, he, hmin⟩, ?_, hpost⟩
    rw [lastO_eq_getLast? pre none]
    cases hg : pre.getLast? with
    | none => simp [noWordB]
    | some x => rw [hg] at hlast; exact hlast

/-- Witness for C9 (amended) at a concrete ASCII string holding a
word-bounded valid time. -/
theorem c9_ascii_time_pattern_witness :
    timeSearch "x 12:30." = true :=
  ((c9_ascii_time_pattern "x 12:30." (by decide)).1).mpr
    ⟨['x', ' '], '1', '2', '3', '0', ['.'], by decide⟩

/-! ## Claim C8: the state file round-trips -/

theorem hexVal_nibbleChar {n : Nat} (h : n < 16) :
    hexVal (nibbleChar n) = some n := by
  interval_cases n <;> decide

theorem decode_escape (l : List Char) : ∀ rest : List Char,
    decodeStringBody (escapeList l ++ '"' :: rest) = some (l, rest) := by
  induction l with
  | nil =>
      intro rest
      show decodeStringBody ('"' :: rest) = some ([], rest)
      rw [decodeStringBody.eq_def]
      simp
  | cons c l ih =>
      intro rest
      have hstep : escapeList (c :: l) = escapeChar c ++ escapeList l := by
        simp [escapeList]
      rw [hstep, List.append_assoc]
      by_cases h1 : c = '"'
      · subst h1
        rw [show escapeChar '"' = ['\\', '"'] from by simp [escapeChar]]
        simp only [List.cons_append, List.nil_append]
        rw [decodeStringBody.eq_def]
        simp [ih]
      by_cases h2 : c = '\\'
      · subst h2
        rw [show escapeChar '\\' = ['\\', '\\'] from by simp [escapeChar]]
        simp only [List.cons_append, List.nil_append]
        rw [decodeStringBody.eq_def]
        simp [ih]
      by_cases h3 : c = '\n'
      · subst h3
        rw [show escapeChar '\n' = ['\\', 'n'] from by simp [escapeChar]]
        simp only [List.cons_append, List.nil_append]
        rw [decodeStringBody.eq_def]
        simp [ih]
      by_cases h4 : c = '\r'
      · subst h4
        rw [show escapeChar '\r' = ['\\', 'r'] from by simp [escapeChar]]
        simp only [List.cons_append, List.nil_append]
        rw [decodeStringBody.eq_def]
        simp [ih]
      by_cases h5 : c = '\t'
      · subst h5
        rw [show escapeChar '\t' = ['\\', 't'] from by simp [escapeChar]]
        simp only [List.cons_append, List.nil_append]
        rw [decodeStringBody.eq_def]
        simp [ih]
      by_cases h6 : c.toNat = 8
      · have he : escapeChar c = ['\\', 'b'] := by
          simp [escapeChar, h1, h2, h3, h4, h5, h6]
        have hc : Char.ofNat 8 = c := by rw [← h6]; exact Char.ofNat_toNat c
        rw [he]
        simp only [List.cons_append, List.nil_append]
        rw [decodeStringBody.eq_def]
        simp [ih]
        exact hc
      by_cases h7 : c.toNat = 12
      · have he : escapeChar c = ['\\', 'f'] := by
          simp [escapeChar, h1, h2, h3, h4, h5, h6, h7]
        have hc : Char.ofNat 12 = c := by rw [← h7]; exact Char.ofNat_toNat c
        rw [he]
        simp only [List.cons_append, List.nil_append]
        rw [decodeStringBody.eq_def]
        simp [ih]
        exact hc
      by_cases h8 : c.toNat < 32
      · have he : escapeChar c =
            ['\\', 'u', '0', '0', nibbleChar (c.toNat / 16), nibbleChar (c.toNat % 16)] := by
          simp [escapeChar, h1, h2, h3, h4, h5, h6, h7, h8]
        have hdiv : c.toNat / 16 < 16 := by omega
        have hmod : c.toNat % 16 < 16 := by omega
        have hfix : Char.ofNat (16 * (c.toNat / 16) + c.toNat % 16) = c := by
          have harith : 16 * (c.toNat / 16) + c.toNat % 16 = c.toNat := by omega
          rw [harith]
          exact Char.ofNat_toNat c
        rw [he]
        simp only [List.cons_append, List.nil_append]
        rw [decodeStringBody.eq_def]
        simp [(by decide : hexVal '0' = some 0), hexVal_nibbleChar hdiv,
          hexVal_nibbleChar hmod, ih]
        exact hfix
      · have he : escapeChar c = [c] := by
          simp [escapeChar, h1, h2, h3, h4, h5, h6, h7, h8]
        rw [he]
        simp only [List.cons_append, List.nil_append]
        rw [decodeStringBody.eq_def]
        simp [h1, h2, h8, ih]

theorem skipWs_cons (c : Char) (l : List Char) :
    skipWs (c :: l) =
      if c = ' ' ∨ c = '\n' ∨ c = '\t' ∨ c = '\r' then skipWs l else c :: l := by
  rw [skipWs.eq_def]

theorem skipWs_nil : skipWs [] = [] := by rw [skipWs.eq_def]

theorem skipWs_encode (l rest : List Char) :
    skipWs (encodeString l ++ rest) = encodeString l ++ rest := by
  show skipWs (('"' :: (escapeList l ++ ['"'])) ++ rest) = _
  rw [List.cons_append, skipWs_cons]
  simp [encodeString]

theorem parseStringLit_encode (l rest : List Char) :
    parseStringLit (encodeString l ++ rest) = some (l, rest) := by
  show parseStringLit (('"' :: (escapeList l ++ ['"'])) ++ rest) = _
  rw [List.cons_append, parseStringLit, if_pos rfl, List.append_assoc,
    List.singleton_append]
  exact decode_escape l rest

theorem parseVal_encode (l rest : List Char) :
    parseVal (encodeString l ++ rest) = some (some l, rest) := by
  rw [parseVal, if_neg, parseStringLit_encode]
  · rfl
  · show ¬(('"' :: (escapeList l ++ ['"'])) ++ rest).take 4 = _
    rw [List.cons_append, List.take_succ_cons]
    simp

theorem parseVal_null (rest : List Char) :
    parseVal ('n' :: 'u' :: 'l' :: 'l' :: rest) = some (none, rest) := by
  rw [parseVal, if_pos] <;> simp

/-- C8: the state file round-trips — for every `MonitorState`, decoding
the exact byte stream `write_state` produces (`json.dump` with
`indent=2, ensure_ascii=False`) yields the same state, `last_status` and
`last_seen_at` both preserved verbatim (non-ASCII characters included,
since only `"`­, `\` and control characters are escaped). -/
theorem c8_state_roundtrip (st : MonitorState) :
    parseState (write_state st) = some st := by
  obtain ⟨⟨lsd⟩, t⟩ := st
  cases t with
  | none =>
      show parseStateChars (encodeStateChars ⟨⟨lsd⟩, none⟩) = _
      simp [parseStateChars, encodeStateChars, List.append_assoc,
        skipWs_cons, skipWs_encode, parseStringLit_encode, parseVal_encode,
        parseVal_null, expectChar, skipWs_nil]
  | some tstr =>
      obtain ⟨td⟩ := tstr
      show parseStateChars (encodeStateChars ⟨⟨lsd⟩, some ⟨td⟩⟩) = _
      simp [parseStateChars, encodeStateChars, List.append_assoc,
        skipWs_cons, skipWs_encode, parseStringLit_encode, parseVal_encode,
        parseVal_null, expectChar, skipWs_nil]
